import Mathlib

/-
Verification development for the Assignment11 backend core: the
calculation engine (operation dispatch with a divide-by-zero guard),
password hashing and verification, JWT issuance and verification, user
registration, authentication, and the current-user dependency.

Numeric operands (Python floats) are modelled by rationals; every value
appearing in the specification and tests (10, 5, 2, 0, 15, 50) is exactly
representable, so the model is exact on the domain of the claims.
Timestamps are modelled as natural-number seconds.
-/

deriving instance DecidableEq for Except

namespace Assignment11

/- ===================================================================
   Calculation engine
   app/operations.py is referenced by app/utils/calculator.py but is not
   present in the source tree; the four arithmetic functions are modelled
   from the spec (section 4.4) and from the unit tests of the factory.
   =================================================================== -/

/-- Modelled from the spec: `add` from the missing `app/operations.py`;
standard addition. -/
def add (a b : ℚ) : ℚ := a + b

/-- Modelled from the spec: `subtract` from the missing `app/operations.py`;
standard subtraction. -/
def subtract (a b : ℚ) : ℚ := a - b

/-- Modelled from the spec: `multiply` from the missing `app/operations.py`;
standard multiplication. -/
def multiply (a b : ℚ) : ℚ := a * b

/-- Modelled from the spec: `divide` from the missing `app/operations.py`;
raises ValueError "Cannot divide by zero." on a zero divisor (behaviour
pinned by `test_divide_by_zero_raises`), otherwise standard division. -/
def divide (a b : ℚ) : Except String ℚ :=
  if b = 0 then .error "Cannot divide by zero." else .ok (a / b)

/-- String enum `CalculationType` from app/schemas/CalculationCreate.py. -/
inductive CalculationType
  | ADD
  | SUB
  | MULTIPLY
  | DIVIDE
deriving DecidableEq

/-- Underlying string value of each member of the str enum. -/
def CalculationType.value : CalculationType → String
  | .ADD => "Add"
  | .SUB => "Sub"
  | .MULTIPLY => "Multiply"
  | .DIVIDE => "Divide"

/-- Validated calculation payload, app/schemas/CalculationCreate.py. -/
structure CalculationCreate where
  a : ℚ
  b : ℚ
  type : CalculationType
deriving DecidableEq

/-- Pydantic validation of `CalculationCreate`: the after-validator
`validate_division` rejects a Divide payload whose second operand is 0. -/
def CalculationCreate.model_validate (a b : ℚ) (ty : CalculationType) :
    Except String CalculationCreate :=
  if ty = CalculationType.DIVIDE ∧ b = 0 then .error "Cannot divide by zero."
  else .ok ⟨a, b, ty⟩

/-- Strategy objects from app/utils/calculator.py (classes Add, Sub,
Multiply, Divide). -/
inductive CalculationStrategy
  | Add
  | Sub
  | Multiply
  | Divide
deriving DecidableEq

/-- Method `compute` of each strategy; Add, Sub and Multiply are total,
Divide delegates to `divide`, whose zero case raises, hence `Except`. -/
def CalculationStrategy.compute : CalculationStrategy → ℚ → ℚ → Except String ℚ
  | .Add, a, b => .ok (add a b)
  | .Sub, a, b => .ok (subtract a b)
  | .Multiply, a, b => .ok (multiply a b)
  | .Divide, a, b => divide a b

/-- Factory dispatch from app/utils/calculator.py. `CalculationType` is a
str enum and the Python `match` compares by equality, so a member and its
string value match the same arm and an arbitrary string can be passed
(the unit tests pass "FakeType"); the domain is therefore `String`. -/
def CalculationFactory.get_strategy (calc_type : String) :
    Except String CalculationStrategy :=
  if calc_type == "Add" then .ok .Add
  else if calc_type == "Sub" then .ok .Sub
  else if calc_type == "Multiply" then .ok .Multiply
  else if calc_type == "Divide" then .ok .Divide
  else .error ("Unsupported calculation type: " ++ calc_type)

/-- Result computation of `create_calculation`
(app/services/calculation_service.py lines 10-11): obtain the strategy
for the payload type, then compute on the two operands. -/
def create_calculation_result (payload : CalculationCreate) : Except String ℚ :=
  match CalculationFactory.get_strategy payload.type.value with
  | .error m => .error m
  | .ok strategy => strategy.compute payload.a payload.b

/- ===================================================================
   Password hashing (app/models/user.py: hash_password, verify_password).
   The bcrypt implementation lives in the third-party passlib package, not
   in the source tree; it is modelled from the spec (section 4.1): hashing
   embeds a fresh salt into the produced hash string, and verification
   re-derives the hash of the candidate password under the salt stored in
   the hash and compares.  The salt is an explicit parameter standing for
   the random salt drawn by bcrypt; bcrypt salts are drawn from a
   dollar-free alphabet, captured by the hypothesis on the theorems.
   =================================================================== -/

/-- Modelled from the spec: bcrypt-style hash string "$2b$" ++ salt ++ "$"
++ digest, with the digest modelled injectively by the password itself
(one-wayness plays no role in the claims). -/
def hash_password (salt password : String) : String :=
  "$2b$" ++ salt ++ "$" ++ password

/-- Salt component stored inside a modelled hash string: the characters
after the "$2b$" version marker and before the next dollar sign. -/
def extract_salt (hashed : String) : String :=
  String.mk ((hashed.data.drop 4).takeWhile (fun c => c != '$'))

/-- Modelled from the spec: passlib verification recomputes the hash of
the candidate password under the salt recorded in the stored hash and
compares with the stored hash. -/
def verify_password (password hashed : String) : Bool :=
  hashed == hash_password (extract_salt hashed) password

/- ===================================================================
   Token codec (app/models/user.py: create_access_token, verify_token).
   JWT encoding and decoding live in the third-party python-jose package;
   they are modelled from the spec (section 4.2): a token is either a
   well-formed signed payload or a malformed string, and decoding checks
   the signing key and the expiry against the current time, failing with
   JWTError (modelled as `none`) otherwise.
   =================================================================== -/

/-- Fallback value of the SECRET_KEY environment variable in
app/models/user.py. -/
def SECRET_KEY : String := "dev-only-fallback-key-change-in-production"

/-- Fallback value of ACCESS_TOKEN_EXPIRE_MINUTES in app/models/user.py. -/
def ACCESS_TOKEN_EXPIRE_MINUTES : Nat := 30

/-- Claims payload carried by a token: the subject written by
`create_access_token` under "sub" plus the expiry timestamp it adds
under "exp" (seconds). -/
structure Payload where
  sub : String
  exp : Nat
deriving DecidableEq

/-- Modelled from the spec: a JWT as produced or consumed by python-jose;
either a payload signed under a key, or any string that does not decode. -/
inductive JWTToken
  | signed (payload : Payload) (key : String)
  | malformed (raw : String)
deriving DecidableEq

/-- Modelled from the spec: jwt.decode checks the signature against the
given key and the "exp" claim against the current time; a malformed,
tampered or expired token raises JWTError, modelled as `none`. -/
def jwt_decode (token : JWTToken) (key : String) (now : Nat) : Option Payload :=
  match token with
  | .malformed _ => none
  | .signed payload k =>
      if k == key && decide (now < payload.exp) then some payload else none

/-- Method `User.create_access_token`: copies the claims data (a mapping
with a "sub" entry), adds the expiry `now` plus the given delta (seconds,
defaulting to ACCESS_TOKEN_EXPIRE_MINUTES minutes) and signs with
SECRET_KEY. -/
def User.create_access_token (sub : String) (now : Nat)
    (expires_delta : Option Nat) : JWTToken :=
  .signed ⟨sub, now + expires_delta.getD (ACCESS_TOKEN_EXPIRE_MINUTES * 60)⟩
    SECRET_KEY

/-- Method `User.verify_token`: decodes under SECRET_KEY, returning the
whole payload, and converts JWTError into None. -/
def User.verify_token (token : JWTToken) (now : Nat) : Option Payload :=
  jwt_decode token SECRET_KEY now

/- ===================================================================
   Pydantic user schemas (app/schemas/base.py)
   =================================================================== -/

/-- Raw registration payload as passed to User.register: a dictionary in
which each expected entry may be absent. -/
structure RawUser where
  first_name : Option String
  last_name : Option String
  email : Option String
  username : Option String
  password : Option String
deriving DecidableEq

/-- Special characters accepted by the password policy in
`PasswordMixin.validate_passwords_match`. -/
def special_characters : String := "!@#$%^&*()-_=+[]\x7b\x7d|;:,.<>?/"

/-- Before-validator `validate_passwords_match` of PasswordMixin: the
sequence of password checks on the raw data, each failure raising
ValueError with its message. Unicode character classes (isdigit, isupper,
islower) are modelled by the corresponding ASCII classifiers; every
password appearing in the claims is ASCII. -/
def check_password : Option String → Except String Unit
  | none => .error "Password must be provided"
  | some p =>
    if p.length < 8 then
      .error "Password must be at least 8 characters long"
    else if p.length > 128 then
      .error "Password must not exceed 128 characters"
    else if !(p.data.any Char.isDigit) then
      .error "Password must contain at least one digit"
    else if !(p.data.any Char.isUpper) then
      .error "Password must contain at least one uppercase letter"
    else if !(p.data.any Char.isLower) then
      .error "Password must contain at least one lowercase letter"
    else if !(p.data.any (fun c => special_characters.data.contains c)) then
      .error "Password must contain at least one special character"
    else .ok ()

/-- Modelled from the spec: pydantic EmailStr lives in a third-party
package; the spec only asks for "email format", modelled as local@domain
with a nonempty local part and a domain containing a dot. -/
def is_email (s : String) : Bool :=
  let cs := s.data
  let loc := cs.takeWhile (fun c => c != '@')
  let domain := (cs.dropWhile (fun c => c != '@')).drop 1
  cs.count '@' == 1 && !loc.isEmpty && !domain.isEmpty && domain.contains '.'

/-- Field constraint of UserBase: a required string with pydantic
min_length and max_length bounds. -/
def check_bounded (v : Option String) (lo hi : Nat) : Except String String :=
  match v with
  | none => .error "Field required"
  | some s =>
    if lo ≤ s.length ∧ s.length ≤ hi then .ok s
    else .error "String length out of bounds"

/-- Validated registration data (schema UserCreate). -/
structure UserCreate where
  first_name : String
  last_name : String
  email : String
  username : String
  password : String
deriving DecidableEq

/-- Pydantic validation of UserCreate: the mode-before password validator
runs first on the raw data, then the field constraints of UserBase (names
1-50 chars, email format, username 3-50 chars) and the alphanumeric
username field validator. -/
def UserCreate.model_validate (d : RawUser) : Except String UserCreate := do
  check_password d.password
  let fn ← check_bounded d.first_name 1 50
  let ln ← check_bounded d.last_name 1 50
  let em ← match d.email with
    | none => Except.error "Field required"
    | some e =>
        if is_email e then Except.ok e
        else Except.error "value is not a valid email address"
  let un ← check_bounded d.username 3 50
  let un ← if !un.isEmpty && un.data.all Char.isAlphanum then Except.ok un
    else Except.error "Username must be alphanumeric"
  match d.password with
  | some p => Except.ok ⟨fn, ln, em, un, p⟩
  | none => Except.error "Password must be provided"

/- ===================================================================
   User model (app/models/user.py)
   =================================================================== -/

/-- Row of the users table; UUIDs are modelled by naturals and datetimes
by natural-number seconds. -/
structure UserRec where
  id : Nat
  first_name : String
  last_name : String
  email : String
  username : String
  hashed_password : String
  is_verified : Bool
  last_login : Option Nat
  created_at : Nat
deriving DecidableEq

/-- Response schema UserResponse (app/schemas/user.py). -/
structure UserResponse where
  id : Nat
  first_name : String
  last_name : String
  email : String
  username : String
  is_verified : Bool
  created_at : Nat
deriving DecidableEq

/-- Validation of a UserResponse from the attributes of a user row. -/
def UserResponse.ofUser (u : UserRec) : UserResponse :=
  ⟨u.id, u.first_name, u.last_name, u.email, u.username, u.is_verified,
    u.created_at⟩

/-- Response schema Token (app/schemas/user.py). -/
structure Token where
  access_token : JWTToken
  token_type : String
  user : UserResponse
deriving DecidableEq

/-- Outcome of the storage commit: a parameter of the model standing for
the behaviour of the external database engine at commit time - success, a
uniqueness IntegrityError (for instance a registration race), or any
other storage failure. -/
inductive CommitOutcome
  | ok
  | integrityError
  | otherError (msg : String)
deriving DecidableEq

/-- Exceptions that can escape the try block of `User.register`, matching
its except clauses in order: pydantic ValidationError, sqlalchemy
IntegrityError, and any other exception - including the plain ValueError
raised by the duplicate pre-check, which none of the two earlier clauses
matches. -/
inductive RegExc
  | validationErr (msg : String)
  | integrityErr
  | exc (msg : String)
deriving DecidableEq

/-- Body of the try block of `User.register`: validate the data with
pydantic, query for an existing user with the same username or email and
raise a plain ValueError if found, hash the password, add the new row and
commit. -/
def register_body (db : List UserRec) (user_data : RawUser) (salt : String)
    (fresh_id : Nat) (now : Nat) (commit : CommitOutcome) :
    Except RegExc (UserRec × List UserRec) :=
  match UserCreate.model_validate user_data with
  | .error m => .error (.validationErr m)
  | .ok uc =>
    if db.any (fun u => u.username == uc.username || u.email == uc.email) then
      .error (.exc "Username or email already exists")
    else
      let new_user : UserRec :=
        ⟨fresh_id, uc.first_name, uc.last_name, uc.email, uc.username,
          hash_password salt uc.password, false, none, now⟩
      match commit with
      | .ok => .ok (new_user, db ++ [new_user])
      | .integrityError => .error .integrityErr
      | .otherError m => .error (.exc m)

/-- Classmethod `User.register`: runs the try body and maps each escaping
exception exactly as the except clauses do - ValidationError is rolled
back and re-raised as ValueError "Validation error: ...", IntegrityError
is rolled back and re-raised as ValueError "Username or email already
exists", and any other exception is rolled back and re-raised as
ValueError "Registration failed: ...". The second component is the
database state after the call (the original state on every rollback). -/
def User.register (db : List UserRec) (user_data : RawUser) (salt : String)
    (fresh_id : Nat) (now : Nat) (commit : CommitOutcome) :
    Except String UserRec × List UserRec :=
  match register_body db user_data salt fresh_id now commit with
  | .ok (u, db2) => (.ok u, db2)
  | .error (.validationErr m) => (.error ("Validation error: " ++ m), db)
  | .error .integrityErr => (.error "Username or email already exists", db)
  | .error (.exc m) => (.error ("Registration failed: " ++ m), db)

/-- Classmethod `User.authenticate`: look up by username or email, return
None when no user matches or the password fails verification; otherwise
update last_login, commit, and build the Token response carrying a fresh
access token for the subject str(user.id). The surrounding try block
turns any exception - for instance a storage failure at commit - into a
rollback followed by None, so no error ever escapes; the Except layer in
the result type records exactly that absence of raised exceptions. -/
def User.authenticate (db : List UserRec) (identifier password : String)
    (now : Nat) (commit : CommitOutcome) :
    Except String (Option Token) × List UserRec :=
  match db.find? (fun u => u.username == identifier || u.email == identifier) with
  | none => (.ok none, db)
  | some user =>
    if !verify_password password user.hashed_password then (.ok none, db)
    else
      let user2 : UserRec := { user with last_login := some now }
      let db2 := db.map (fun u => if u.id == user.id then user2 else u)
      match commit with
      | .ok =>
          (.ok (some ⟨User.create_access_token (toString user.id) now none,
            "bearer", UserResponse.ofUser user2⟩), db2)
      | .integrityError => (.ok none, db)
      | .otherError _ => (.ok none, db)

/- ===================================================================
   Current-user dependency (app/auth/dependencies.py)
   =================================================================== -/

/-- Values that get_current_user can hand to the id filter of
db.query(User).filter(User.id == v).first() as the bind parameter: a
proper UUID, or the whole decoded payload dictionary that verify_token
returned. -/
inductive BindValue
  | uuidVal (id : Nat)
  | dictVal (payload : Payload)
deriving DecidableEq

/-- Ways get_current_user can fail: the 401 HTTPException it raises
itself, or an exception of the storage layer that it does not catch and
therefore propagates to its caller. -/
inductive AuthDependencyFailure
  | credentialsException (status : Nat) (detail : String)
  | storageError (detail : String)
deriving DecidableEq

/-- Execution of db.query(User).filter(User.id == v).first(). The
comparison is not evaluated as Python equality: v becomes a bind
parameter of the query against the UUID id column. A UUID value binds
and the first matching row (or None) is returned; binding the decoded
payload dictionary raises in the storage layer before any row is read -
the character-based Uuid bind processor calls .hex on the value, which a
dict lacks (SQLite), and psycopg cannot adapt a dict at all
(PostgreSQL). The driver is external to the source tree; its rejection
of a non-UUID bind value is modelled as the error result. -/
def query_filter_id_first (db : List UserRec) :
    BindValue → Except String (Option UserRec)
  | .uuidVal n => .ok (db.find? (fun u => u.id == n))
  | .dictVal _ =>
      .error "StatementError: dict bind parameter cannot be adapted to the UUID id column"

/-- Dependency get_current_user: verify the token, bind the whole result
to user_id, run the id-filter query with user_id as the bind value, and
raise the 401 credentials exception when the token does not verify or no
row matches; an exception raised by the query itself is not caught and
propagates. -/
def get_current_user (db : List UserRec) (token : JWTToken) (now : Nat) :
    Except AuthDependencyFailure UserResponse :=
  match User.verify_token token now with
  | none =>
      .error (.credentialsException 401 "Could not validate credentials")
  | some user_id =>
    match query_filter_id_first db (.dictVal user_id) with
    | .error m => .error (.storageError m)
    | .ok none =>
        .error (.credentialsException 401 "Could not validate credentials")
    | .ok (some user) => .ok (UserResponse.ofUser user)

/- ===================================================================
   Derived predicates and concrete fixtures used by the theorems
   =================================================================== -/

/-- Password complexity policy named by the spec: length 8 to 128 and at
least one digit, one uppercase letter, one lowercase letter and one
special character. -/
def passwordPolicy (p : String) : Bool :=
  decide (8 ≤ p.length) && decide (p.length ≤ 128) &&
  p.data.any Char.isDigit && p.data.any Char.isUpper &&
  p.data.any Char.isLower &&
  p.data.any (fun c => special_characters.data.contains c)

/-- Messages that the password before-validator can raise once a password
is present. -/
def password_messages : List String :=
  ["Password must be at least 8 characters long",
   "Password must not exceed 128 characters",
   "Password must contain at least one digit",
   "Password must contain at least one uppercase letter",
   "Password must contain at least one lowercase letter",
   "Password must contain at least one special character"]

/-- Fixture: a registration payload that passes every validation. -/
def gooddata : RawUser :=
  ⟨some "Alice", some "Smith", some "alice@example.com", some "alice",
    some "Password1!"⟩

/-- Fixture: the stored account row produced from `gooddata`. -/
def aliceRec : UserRec :=
  ⟨1, "Alice", "Smith", "alice@example.com", "alice",
    hash_password "ab" "Password1!", false, none, 0⟩

/-- Fixture: a valid payload whose username collides with `aliceRec` but
whose email is fresh. -/
def aliceDupData : RawUser :=
  ⟨some "Bob", some "Jones", some "bob@example.com", some "alice",
    some "Password1!"⟩

/-- Fixture: a registration payload with the too-short password "short". -/
def shortPwData : RawUser :=
  ⟨some "John", some "Doe", some "john.doe@example.com", some "johndoe",
    some "short"⟩

/-- Fixture: a registration payload with the digit-free password
"NoDigitsHere!". -/
def noDigitsData : RawUser :=
  ⟨some "John", some "Doe", some "john.doe@example.com", some "johndoe",
    some "NoDigitsHere!"⟩

/- ===================================================================
   Helper lemmas
   =================================================================== -/

lemma data_append (s t : String) : (s ++ t).data = s.data ++ t.data := rfl

lemma data_hash_password (salt p : String) :
    (hash_password salt p).data =
      '$' :: '2' :: 'b' :: '$' :: (salt.data ++ '$' :: p.data) := by
  simp [hash_password, data_append]

lemma extract_salt_hash_password (salt p : String)
    (h : ∀ c ∈ salt.data, c ≠ '$') :
    extract_salt (hash_password salt p) = salt := by
  unfold extract_salt
  rw [data_hash_password]
  have hdrop :
      List.drop 4 ('$' :: '2' :: 'b' :: '$' :: (salt.data ++ '$' :: p.data)) =
        salt.data ++ '$' :: p.data := rfl
  rw [hdrop, List.takeWhile_append_of_pos (by intro a ha; simpa using h a ha)]
  simp

lemma hash_password_injective (salt p q : String)
    (h : hash_password salt p = hash_password salt q) : p = q := by
  have hd := congrArg String.data h
  rw [data_hash_password, data_hash_password] at hd
  simp at hd
  exact String.ext hd

lemma check_password_ok_policy (p : String)
    (h : check_password (some p) = Except.ok ()) : passwordPolicy p = true := by
  simp only [check_password] at h
  split_ifs at h with h1 h2 h3 h4 h5 h6
  all_goals try simp at h
  simp only [passwordPolicy, Bool.and_eq_true, decide_eq_true_eq]
  refine ⟨⟨⟨⟨⟨?_, ?_⟩, ?_⟩, ?_⟩, ?_⟩, ?_⟩ <;>
    first
      | omega
      | simpa using h3
      | simpa using h4
      | simpa using h5
      | simpa using h6

lemma check_password_ok_or_listed (p : String) :
    check_password (some p) = Except.ok () ∨
      ∃ m ∈ password_messages, check_password (some p) = Except.error m := by
  simp only [check_password]
  split_ifs <;>
    first
      | (left; rfl)
      | (right; exact ⟨_, by simp [password_messages], rfl⟩)

lemma model_validate_password_error (d : RawUser) (m : String)
    (h : check_password d.password = Except.error m) :
    UserCreate.model_validate d = Except.error m := by
  unfold UserCreate.model_validate
  rw [h]
  rfl

lemma register_validation_error (db : List UserRec) (d : RawUser)
    (salt : String) (fresh_id now : Nat) (commit : CommitOutcome) (m : String)
    (h : UserCreate.model_validate d = Except.error m) :
    User.register db d salt fresh_id now commit =
      (Except.error ("Validation error: " ++ m), db) := by
  unfold User.register register_body
  rw [h]

lemma register_precheck_duplicate (db : List UserRec) (d : RawUser)
    (salt : String) (fresh_id now : Nat) (commit : CommitOutcome)
    (uc : UserCreate)
    (hval : UserCreate.model_validate d = Except.ok uc)
    (hdup : db.any (fun u => u.username == uc.username || u.email == uc.email)
      = true) :
    User.register db d salt fresh_id now commit =
      (Except.error "Registration failed: Username or email already exists",
        db) := by
  unfold User.register register_body
  rw [hval]
  simp [hdup]

lemma register_integrity_race (db : List UserRec) (d : RawUser)
    (salt : String) (fresh_id now : Nat) (uc : UserCreate)
    (hval : UserCreate.model_validate d = Except.ok uc)
    (hnodup : db.any (fun u => u.username == uc.username || u.email == uc.email)
      = false) :
    User.register db d salt fresh_id now CommitOutcome.integrityError =
      (Except.error "Username or email already exists", db) := by
  unfold User.register register_body
  rw [hval]
  simp [hnodup]

lemma register_commit_other_error (db : List UserRec) (d : RawUser)
    (salt : String) (fresh_id now : Nat) (m : String) (uc : UserCreate)
    (hval : UserCreate.model_validate d = Except.ok uc)
    (hnodup : db.any (fun u => u.username == uc.username || u.email == uc.email)
      = false) :
    User.register db d salt fresh_id now (CommitOutcome.otherError m) =
      (Except.error ("Registration failed: " ++ m), db) := by
  unfold User.register register_body
  rw [hval]
  simp [hnodup]

lemma authenticate_commit_other_error (db : List UserRec)
    (identifier password : String) (tnow : Nat) (m : String) :
    User.authenticate db identifier password tnow (CommitOutcome.otherError m) =
      (Except.ok none, db) := by
  unfold User.authenticate
  cases hf : db.find? (fun u => u.username == identifier || u.email == identifier)
      with
  | none => rfl
  | some u =>
      cases hv : verify_password password u.hashed_password with
      | false => simp [hv]
      | true => simp [hv]

lemma get_strategy_of_value (ty : CalculationType) :
    CalculationFactory.get_strategy ty.value =
      Except.ok (match ty with
        | .ADD => CalculationStrategy.Add
        | .SUB => CalculationStrategy.Sub
        | .MULTIPLY => CalculationStrategy.Multiply
        | .DIVIDE => CalculationStrategy.Divide) := by
  cases ty <;> decide

/- ===================================================================
   Claim theorems
   =================================================================== -/

/-- C4: for every operand x, a Divide payload with second operand 0 is
rejected at validation time with the DivisionByZero error "Cannot divide
by zero."; and every payload that passes validation computes without a
runtime error, so the zero-divisor failure always surfaces as a
request-validation failure, never during strategy dispatch. -/
theorem divide_by_zero_eager_validation (x : ℚ) :
    CalculationCreate.model_validate x 0 CalculationType.DIVIDE =
      Except.error "Cannot divide by zero."
    ∧ ∀ (a b : ℚ) (ty : CalculationType) (c : CalculationCreate),
        CalculationCreate.model_validate a b ty = Except.ok c →
        ∃ r, create_calculation_result c = Except.ok r := by
  constructor
  · simp [CalculationCreate.model_validate]
  · intro a b ty c hval
    unfold CalculationCreate.model_validate at hval
    split_ifs at hval with hdz
    have hc : c = ⟨a, b, ty⟩ := by
      cases hval
      rfl
    subst hc
    unfold create_calculation_result
    rw [get_strategy_of_value]
    cases ty with
    | ADD => exact ⟨add a b, rfl⟩
    | SUB => exact ⟨subtract a b, rfl⟩
    | MULTIPLY => exact ⟨multiply a b, rfl⟩
    | DIVIDE =>
        have hb : ¬ b = 0 := fun hb => hdz ⟨rfl, hb⟩
        exact ⟨a / b, by simp [CalculationStrategy.compute, divide, hb]⟩

/-- C4 witness: the theorem applied at x = 3, and at the validated
payload (10, 2, Divide). -/
theorem divide_by_zero_eager_validation_witness :
    CalculationCreate.model_validate 3 0 CalculationType.DIVIDE =
      Except.error "Cannot divide by zero."
    ∧ ∃ r, create_calculation_result ⟨10, 2, CalculationType.DIVIDE⟩ =
        Except.ok r :=
  ⟨(divide_by_zero_eager_validation 3).1,
   (divide_by_zero_eager_validation 3).2 10 2 CalculationType.DIVIDE
     ⟨10, 2, CalculationType.DIVIDE⟩ (by decide)⟩

/-- C5: the dispatch computes standard arithmetic on the four operation
kinds - compute(10,5,Add) = 15, compute(10,5,Sub) = 5,
compute(10,5,Multiply) = 50, compute(10,2,Divide) = 5 - and any kind
outside the four fails with the UnsupportedOperation error. -/
theorem compute_dispatch_closed :
    create_calculation_result ⟨10, 5, CalculationType.ADD⟩ = Except.ok 15
    ∧ create_calculation_result ⟨10, 5, CalculationType.SUB⟩ = Except.ok 5
    ∧ create_calculation_result ⟨10, 5, CalculationType.MULTIPLY⟩ = Except.ok 50
    ∧ create_calculation_result ⟨10, 2, CalculationType.DIVIDE⟩ = Except.ok 5
    ∧ ∀ ty : String, ty ∉ ["Add", "Sub", "Multiply", "Divide"] →
        CalculationFactory.get_strategy ty =
          Except.error ("Unsupported calculation type: " ++ ty) := by
  refine ⟨?_, ?_, ?_, ?_, ?_⟩
  · unfold create_calculation_result
    rw [get_strategy_of_value]
    show Except.ok (add 10 5) = Except.ok 15
    norm_num [add]
  · unfold create_calculation_result
    rw [get_strategy_of_value]
    show Except.ok (subtract 10 5) = Except.ok 5
    norm_num [subtract]
  · unfold create_calculation_result
    rw [get_strategy_of_value]
    show Except.ok (multiply 10 5) = Except.ok 50
    norm_num [multiply]
  · unfold create_calculation_result
    rw [get_strategy_of_value]
    show divide 10 2 = Except.ok 5
    rw [divide, if_neg (by norm_num : ¬ (2:ℚ) = 0)]
    norm_num
  · intro ty h
    simp only [List.mem_cons, List.not_mem_nil, or_false, not_or] at h
    obtain ⟨h1, h2, h3, h4⟩ := h
    simp [CalculationFactory.get_strategy, h1, h2, h3, h4]

/-- C5 witness: the closed-mapping part applied at the unrecognized kind
"FakeType" from the unit tests. -/
theorem compute_dispatch_closed_witness :
    CalculationFactory.get_strategy "FakeType" =
      Except.error "Unsupported calculation type: FakeType" :=
  compute_dispatch_closed.2.2.2.2 "FakeType" (by decide)

/-- C10 counterexample: on a store holding the account of id 1 and a
valid token for subject "1", get_current_user propagates the storage
exception raised when the payload dictionary is bound against the UUID
id column - it does not raise the 401 credentials exception the claim
asserts for valid tokens. -/
theorem get_current_user_valid_token_counterexample :
    get_current_user [aliceRec] (User.create_access_token "1" 0 none) 5 =
      Except.error (.storageError
        "StatementError: dict bind parameter cannot be adapted to the UUID id column")
    ∧ get_current_user [aliceRec] (User.create_access_token "1" 0 none) 5 ≠
      Except.error (.credentialsException 401 "Could not validate credentials") := by
  decide

/-- C10 amended: for every token and database state, get_current_user
never successfully returns a UserResponse; an invalid token raises the
401 credentials exception, while a valid token makes verify_token return
the whole decoded payload dictionary, whose use as the id bind parameter
raises an unhandled storage-layer exception that propagates instead of
the 401 - so no account lookup can ever complete. -/
theorem get_current_user_never_succeeds_amended (db : List UserRec)
    (token : JWTToken) (now : Nat) :
    (∀ u, get_current_user db token now ≠ Except.ok u)
    ∧ (User.verify_token token now = none →
        get_current_user db token now =
          Except.error
            (.credentialsException 401 "Could not validate credentials"))
    ∧ (∀ payload, User.verify_token token now = some payload →
        get_current_user db token now =
          Except.error (.storageError
            "StatementError: dict bind parameter cannot be adapted to the UUID id column")) := by
  refine ⟨?_, ?_, ?_⟩
  · intro u
    unfold get_current_user
    cases h : User.verify_token token now with
    | none => simp
    | some payload => simp [query_filter_id_first]
  · intro h
    unfold get_current_user
    rw [h]
  · intro payload h
    unfold get_current_user
    rw [h]
    simp [query_filter_id_first]

/-- C10 amended witness: the invalid-token branch on a malformed token
and the valid-token branch on a token issued for subject "1". -/
theorem get_current_user_never_succeeds_amended_witness :
    (∀ u, get_current_user [aliceRec] (JWTToken.malformed "junk") 5 ≠
      Except.ok u)
    ∧ get_current_user [aliceRec] (JWTToken.malformed "junk") 5 =
        Except.error
          (.credentialsException 401 "Could not validate credentials")
    ∧ get_current_user [aliceRec] (User.create_access_token "1" 0 none) 5 =
        Except.error (.storageError
          "StatementError: dict bind parameter cannot be adapted to the UUID id column") :=
  ⟨(get_current_user_never_succeeds_amended [aliceRec]
      (JWTToken.malformed "junk") 5).1,
   (get_current_user_never_succeeds_amended [aliceRec]
      (JWTToken.malformed "junk") 5).2.1 rfl,
   (get_current_user_never_succeeds_amended [aliceRec]
      (User.create_access_token "1" 0 none) 5).2.2 ⟨"1", 1800⟩ (by decide)⟩

/-- C1: authenticate returns None whenever no stored account matches the
identifier by username or email, or the password fails verification
against the stored hash, and no exception escapes in those cases (the
result is the ok constructor, never an error), for every commit
behaviour of the storage layer. -/
theorem authenticate_bad_credentials_silent (db : List UserRec)
    (identifier password : String) (now : Nat) (commit : CommitOutcome)
    (h : db.find? (fun u => u.username == identifier || u.email == identifier)
          = none
       ∨ ∃ u, db.find?
            (fun u => u.username == identifier || u.email == identifier)
            = some u
          ∧ verify_password password u.hashed_password = false) :
    User.authenticate db identifier password now commit =
      (Except.ok none, db) := by
  unfold User.authenticate
  rcases h with h | ⟨u, hu, hv⟩
  · rw [h]
  · rw [hu]
    simp [hv]

/-- C1 witness: the theorem applied to a store holding only the account
"alice", first with the unknown identifier "bob", then with a wrong
password for "alice". -/
theorem authenticate_bad_credentials_silent_witness :
    User.authenticate [aliceRec] "bob" "Password1!" 9 CommitOutcome.ok =
      (Except.ok none, [aliceRec])
    ∧ User.authenticate [aliceRec] "alice" "WrongPass1!" 9 CommitOutcome.ok =
      (Except.ok none, [aliceRec]) :=
  ⟨authenticate_bad_credentials_silent [aliceRec] "bob" "Password1!" 9
      CommitOutcome.ok (Or.inl (by decide)),
   authenticate_bad_credentials_silent [aliceRec] "alice" "WrongPass1!" 9
      CommitOutcome.ok (Or.inr ⟨aliceRec, by decide, by decide⟩)⟩

/-- C3: registration fails with a ValidationError whenever the supplied
password violates the complexity policy (length 8-128, at least one
digit, uppercase, lowercase and special character), the raised message
being one of the password-validator messages; in particular password
"short" fails indicating the minimum length of 8 and password
"NoDigitsHere!" fails indicating a missing digit. -/
theorem register_password_policy_enforced (db : List UserRec) (d : RawUser)
    (salt : String) (fresh_id now : Nat) (commit : CommitOutcome) (p : String)
    (hp : d.password = some p) (hpol : passwordPolicy p = false) :
    (∃ m ∈ password_messages,
      (User.register db d salt fresh_id now commit).1 =
        Except.error ("Validation error: " ++ m))
    ∧ (User.register [] shortPwData "cd" 2 5 CommitOutcome.ok).1 =
        Except.error "Validation error: Password must be at least 8 characters long"
    ∧ (User.register [] noDigitsData "cd" 2 5 CommitOutcome.ok).1 =
        Except.error "Validation error: Password must contain at least one digit" := by
  refine ⟨?_, by decide, by decide⟩
  rcases check_password_ok_or_listed p with hok | ⟨m, hmem, herr⟩
  · rw [check_password_ok_policy p hok] at hpol
    exact absurd hpol (by simp)
  · refine ⟨m, hmem, ?_⟩
    rw [register_validation_error db d salt fresh_id now commit m
      (model_validate_password_error d m (by rw [hp]; exact herr))]

/-- C3 witness: the theorem applied to the fixture payload carrying the
password "short". -/
theorem register_password_policy_enforced_witness :
    ∃ m ∈ password_messages,
      (User.register [] shortPwData "cd" 2 5 CommitOutcome.ok).1 =
        Except.error ("Validation error: " ++ m) :=
  (register_password_policy_enforced [] shortPwData "cd" 2 5 CommitOutcome.ok
    "short" (by decide) (by decide)).1

/-- C6: issuing a token for a subject and verifying it strictly before
the expiry timestamp recovers a payload with the same subject; verifying
strictly after expiry yields None; and verifying a malformed token, or
one signed under a key other than the server secret (tampered), yields
None rather than raising. -/
theorem token_issue_verify_roundtrip (sub : String) (now tnow : Nat)
    (delta : Option Nat) :
    (tnow < now + delta.getD (ACCESS_TOKEN_EXPIRE_MINUTES * 60) →
      ∃ payload,
        User.verify_token (User.create_access_token sub now delta) tnow =
          some payload ∧ payload.sub = sub)
    ∧ (now + delta.getD (ACCESS_TOKEN_EXPIRE_MINUTES * 60) < tnow →
      User.verify_token (User.create_access_token sub now delta) tnow = none)
    ∧ (∀ raw, User.verify_token (JWTToken.malformed raw) tnow = none)
    ∧ (∀ payload key, key ≠ SECRET_KEY →
      User.verify_token (JWTToken.signed payload key) tnow = none)
    ∧ (∀ payload key, payload.exp ≤ tnow →
      User.verify_token (JWTToken.signed payload key) tnow = none) := by
  refine ⟨?_, ?_, fun raw => rfl, ?_, ?_⟩
  · intro h
    refine ⟨⟨sub, now + delta.getD (ACCESS_TOKEN_EXPIRE_MINUTES * 60)⟩, ?_, rfl⟩
    simp [User.verify_token, User.create_access_token, jwt_decode, h]
  · intro h
    have hlt : ¬ tnow < now + delta.getD (ACCESS_TOKEN_EXPIRE_MINUTES * 60) := by
      omega
    simp [User.verify_token, User.create_access_token, jwt_decode, hlt]
  · intro payload key hk
    simp [User.verify_token, jwt_decode, hk]
  · intro payload key hexp
    have hlt : ¬ tnow < payload.exp := by omega
    simp [User.verify_token, jwt_decode, hlt]

/-- C6 witness: the theorem applied to the subject "42" issued at time 0
with the default time to live, verified at times 10 and 2000, plus a
malformed token and a token signed under the key "wrong". -/
theorem token_issue_verify_roundtrip_witness :
    (∃ payload,
      User.verify_token (User.create_access_token "42" 0 none) 10 =
        some payload ∧ payload.sub = "42")
    ∧ User.verify_token (User.create_access_token "42" 0 none) 2000 = none
    ∧ User.verify_token (JWTToken.malformed "junk") 2000 = none
    ∧ User.verify_token (JWTToken.signed ⟨"42", 99⟩ "wrong") 10 = none
    ∧ User.verify_token (JWTToken.signed ⟨"42", 99⟩ SECRET_KEY) 99 = none :=
  ⟨(token_issue_verify_roundtrip "42" 0 10 none).1 (by decide),
   (token_issue_verify_roundtrip "42" 0 2000 none).2.1 (by decide),
   (token_issue_verify_roundtrip "42" 0 2000 none).2.2.1 "junk",
   (token_issue_verify_roundtrip "42" 0 10 none).2.2.2.1 ⟨"42", 99⟩ "wrong"
     (by decide),
   (token_issue_verify_roundtrip "42" 0 99 none).2.2.2.2 ⟨"42", 99⟩ SECRET_KEY
     (by decide)⟩

/-- C7: for every password, hashing under any bcrypt salt and verifying
the same password against the produced hash returns true, and verifying
any other password against that hash returns false. -/
theorem hash_verify_roundtrip (salt p q : String)
    (hs : ∀ c ∈ salt.data, c ≠ '$') :
    verify_password p (hash_password salt p) = true
    ∧ (q ≠ p → verify_password q (hash_password salt p) = false) := by
  constructor
  · unfold verify_password
    rw [extract_salt_hash_password salt p hs]
    simp
  · intro hne
    unfold verify_password
    rw [extract_salt_hash_password salt p hs]
    simp only [beq_eq_false_iff_ne, ne_eq]
    intro heq
    exact hne (hash_password_injective salt p q heq).symm

/-- C7 witness: the theorem applied to the salt "ab", the password
"Password1!" and the distinct password "Other1!aa". -/
theorem hash_verify_roundtrip_witness :
    verify_password "Password1!" (hash_password "ab" "Password1!") = true
    ∧ verify_password "Other1!aa" (hash_password "ab" "Password1!") = false :=
  ⟨(hash_verify_roundtrip "ab" "Password1!" "Other1!aa" (by decide)).1,
   (hash_verify_roundtrip "ab" "Password1!" "Other1!aa" (by decide)).2
     (by decide)⟩

/-- C2 counterexample: registering a valid payload whose username
collides with a stored account does not fail with the message "Username
or email already exists" - the duplicate pre-check ValueError is caught
again by the generic handler of register and re-raised wrapped as
"Registration failed: Username or email already exists". -/
theorem register_duplicate_message_counterexample :
    (User.register [aliceRec] aliceDupData "cd" 2 5 CommitOutcome.ok).1 =
      Except.error "Registration failed: Username or email already exists"
    ∧ (User.register [aliceRec] aliceDupData "cd" 2 5 CommitOutcome.ok).1 ≠
      Except.error "Username or email already exists" := by
  decide

/-- C2 amended: a validated registration input whose username or email
collides with a stored account fails with a DuplicateError whose message
contains "Username or email already exists", namely the wrapped message
"Registration failed: Username or email already exists" (the pre-check
ValueError is re-caught by the generic except clause), while a
persistence-layer integrity violation at commit time is normalized to the
error carrying exactly "Username or email already exists". -/
theorem register_duplicate_paths_amended (db : List UserRec) (d : RawUser)
    (salt : String) (fresh_id now : Nat) (uc : UserCreate)
    (hval : UserCreate.model_validate d = Except.ok uc) :
    (db.any (fun u => u.username == uc.username || u.email == uc.email) = true →
      ∀ commit, User.register db d salt fresh_id now commit =
        (Except.error "Registration failed: Username or email already exists",
          db))
    ∧ (db.any (fun u => u.username == uc.username || u.email == uc.email)
        = false →
      User.register db d salt fresh_id now CommitOutcome.integrityError =
        (Except.error "Username or email already exists", db)) :=
  ⟨fun hdup commit =>
      register_precheck_duplicate db d salt fresh_id now commit uc hval hdup,
   fun hnodup =>
      register_integrity_race db d salt fresh_id now uc hval hnodup⟩

/-- C2 amended witness: the pre-check path on a store holding "alice"
with a colliding valid payload, and the integrity path on an empty store
with a commit-time uniqueness violation. -/
theorem register_duplicate_paths_amended_witness :
    User.register [aliceRec] aliceDupData "cd" 2 5 CommitOutcome.ok =
      (Except.error "Registration failed: Username or email already exists",
        [aliceRec])
    ∧ User.register [] gooddata "cd" 2 5 CommitOutcome.integrityError =
      (Except.error "Username or email already exists",
        ([] : List UserRec)) :=
  ⟨(register_duplicate_paths_amended [aliceRec] aliceDupData "cd" 2 5
      ⟨"Bob", "Jones", "bob@example.com", "alice", "Password1!"⟩
      (by decide)).1 (by decide) CommitOutcome.ok,
   (register_duplicate_paths_amended [] gooddata "cd" 2 5
      ⟨"Alice", "Smith", "alice@example.com", "alice", "Password1!"⟩
      (by decide)).2 (by decide)⟩

/-- C8 counterexample: a storage failure at commit time inside
authenticate is not re-raised - on a store holding "alice" with the
correct password and a failing commit, authenticate rolls back and
returns the ok-None result, indistinguishable from a credential
mismatch. -/
theorem authenticate_storage_error_swallowed_counterexample :
    User.authenticate [aliceRec] "alice" "Password1!" 7
        (CommitOutcome.otherError "disk full") = (Except.ok none, [aliceRec])
    ∧ ¬ ∃ m, (User.authenticate [aliceRec] "alice" "Password1!" 7
        (CommitOutcome.otherError "disk full")).1 = Except.error m := by
  refine ⟨by decide, ?_⟩
  rintro ⟨m, hm⟩
  rw [show (User.authenticate [aliceRec] "alice" "Password1!" 7
      (CommitOutcome.otherError "disk full")).1 = Except.ok none from
      by decide] at hm
  exact Except.noConfusion hm

/-- C8 amended: an unexpected storage error at commit time triggers a
rollback in both operations, but only register re-raises it (wrapped as
"Registration failed: ..."); authenticate swallows it and returns None,
leaving the caller unable to distinguish it from bad credentials. -/
theorem storage_error_handling_amended (db : List UserRec) (d : RawUser)
    (salt : String) (fresh_id now : Nat) (m : String) (uc : UserCreate)
    (hval : UserCreate.model_validate d = Except.ok uc)
    (hnodup : db.any (fun u => u.username == uc.username || u.email == uc.email)
      = false) :
    User.register db d salt fresh_id now (CommitOutcome.otherError m) =
      (Except.error ("Registration failed: " ++ m), db)
    ∧ ∀ (db2 : List UserRec) (identifier password : String) (tnow : Nat),
        User.authenticate db2 identifier password tnow
          (CommitOutcome.otherError m) = (Except.ok none, db2) :=
  ⟨register_commit_other_error db d salt fresh_id now m uc hval hnodup,
   fun db2 identifier password tnow =>
      authenticate_commit_other_error db2 identifier password tnow m⟩

/-- C8 amended witness: the register path on an empty store and the
authenticate path on the store holding "alice", both with the storage
failure "disk full" injected at commit. -/
theorem storage_error_handling_amended_witness :
    User.register [] gooddata "cd" 2 5 (CommitOutcome.otherError "disk full") =
      (Except.error "Registration failed: disk full", ([] : List UserRec))
    ∧ User.authenticate [aliceRec] "alice" "Password1!" 7
        (CommitOutcome.otherError "disk full") = (Except.ok none, [aliceRec]) :=
  ⟨(storage_error_handling_amended [] gooddata "cd" 2 5 "disk full"
      ⟨"Alice", "Smith", "alice@example.com", "alice", "Password1!"⟩
      (by decide) (by decide)).1,
   (storage_error_handling_amended [] gooddata "cd" 2 5 "disk full"
      ⟨"Alice", "Smith", "alice@example.com", "alice", "Password1!"⟩
      (by decide) (by decide)).2 [aliceRec] "alice" "Password1!" 7⟩

/-- C9 counterexample: the storage-integrity path fails with "Username or
email already exists", not with the claimed "User already exists", and
the pre-check path fails with the wrapped "Registration failed: Username
or email already exists", not with the claimed bare message. -/
theorem duplicate_message_divergence_counterexample :
    (User.register [] gooddata "cd" 2 5 CommitOutcome.integrityError).1 =
      Except.error "Username or email already exists"
    ∧ (User.register [] gooddata "cd" 2 5 CommitOutcome.integrityError).1 ≠
      Except.error "User already exists"
    ∧ (User.register [aliceRec] aliceDupData "cd" 2 5 CommitOutcome.ok).1 ≠
      Except.error "Username or email already exists" := by
  decide

/-- C9 amended: the two duplicate-account failure paths do produce
diverging messages, but the divergence is "Registration failed: Username
or email already exists" (pre-check, wrapped by the generic handler)
against "Username or email already exists" (storage-integrity violation);
the message "User already exists" is produced by neither path. -/
theorem duplicate_messages_diverge_amended (db : List UserRec) (d : RawUser)
    (salt : String) (fresh_id now : Nat) (uc : UserCreate)
    (hval : UserCreate.model_validate d = Except.ok uc)
    (hdup : db.any (fun u => u.username == uc.username || u.email == uc.email)
      = true)
    (db2 : List UserRec) (d2 : RawUser) (uc2 : UserCreate)
    (hval2 : UserCreate.model_validate d2 = Except.ok uc2)
    (hnodup : db2.any
      (fun u => u.username == uc2.username || u.email == uc2.email) = false) :
    ∃ m1 m2,
      (User.register db d salt fresh_id now CommitOutcome.ok).1 =
        Except.error m1
      ∧ (User.register db2 d2 salt fresh_id now
          CommitOutcome.integrityError).1 = Except.error m2
      ∧ m1 ≠ m2
      ∧ m1 = "Registration failed: Username or email already exists"
      ∧ m2 = "Username or email already exists"
      ∧ m1 ≠ "User already exists"
      ∧ m2 ≠ "User already exists" := by
  refine ⟨"Registration failed: Username or email already exists",
    "Username or email already exists", ?_, ?_, by decide, rfl, rfl,
    by decide, by decide⟩
  · rw [register_precheck_duplicate db d salt fresh_id now CommitOutcome.ok uc
      hval hdup]
  · rw [register_integrity_race db2 d2 salt fresh_id now uc2 hval2 hnodup]

/-- C9 amended witness: the theorem applied to the colliding payload over
the store holding "alice" and to a fresh registration hit by a
commit-time integrity violation. -/
theorem duplicate_messages_diverge_amended_witness :
    ∃ m1 m2,
      (User.register [aliceRec] aliceDupData "cd" 2 5 CommitOutcome.ok).1 =
        Except.error m1
      ∧ (User.register [] gooddata "cd" 2 5 CommitOutcome.integrityError).1 =
        Except.error m2
      ∧ m1 ≠ m2
      ∧ m1 = "Registration failed: Username or email already exists"
      ∧ m2 = "Username or email already exists"
      ∧ m1 ≠ "User already exists"
      ∧ m2 ≠ "User already exists" :=
  duplicate_messages_diverge_amended [aliceRec] aliceDupData "cd" 2 5
    ⟨"Bob", "Jones", "bob@example.com", "alice", "Password1!"⟩ (by decide)
    (by decide) [] gooddata
    ⟨"Alice", "Smith", "alice@example.com", "alice", "Password1!"⟩ (by decide)
    (by decide)

end Assignment11
